import Mathlib

/-!
Verification of the databass music-catalog application against its
natural-language specification.  The Python sources under `src/databass`
are shallowly embedded: pure helpers become Lean functions, the relational
store becomes explicit lists of row structures, fallible code returns
`Except PyErr`, and external HTTP services become oracle functions
supplied as parameters.
-/

namespace Databass

/-- Python exception kinds observable in the embedded code paths. -/
inductive PyErr where
  | valueError
  | keyError
  | typeError
  | multipleResultsFound
  | invalidRequestError
  | unboundLocalError
deriving DecidableEq, Repr

/-- Does `hay` start with `pat`? -/
def listStartsWith (pat hay : List Char) : Bool :=
  match pat, hay with
  | [], _ => true
  | _ :: _, [] => false
  | p :: ps, h :: hs => p = h && listStartsWith ps hs

/-- Does `pat` occur as a contiguous run inside `hay`? -/
def listHasRun (pat hay : List Char) : Bool :=
  match hay with
  | [] => pat.isEmpty
  | _ :: hs => listStartsWith pat hay || listHasRun pat hs

/-- Python `str.lower()`, as the character list of the result. -/
def lowerChars (s : String) : List Char :=
  s.data.map Char.toLower

/-- SQL `column ILIKE '%pat%'`: case-insensitive substring containment. -/
def ilikeContains (hay pat : String) : Bool :=
  listHasRun (lowerChars pat) (lowerChars hay)

/-! ## `Util.to_date` and `Util.to_begin_or_end` (api/util.py lines 44-79)

Python distinguishes `datetime.date` from `datetime.datetime` objects, and
cross-type equality between the two is always `False` in CPython (ordering
even raises `TypeError`).  We keep the distinction with a tagged value type
so the embedding can express which of the two a function returns. -/

/-- A Python `datetime.date` value. -/
structure PyDate where
  year : Nat
  month : Nat
  day : Nat
deriving DecidableEq, Repr

/-- A Python `datetime.datetime` value (time fields beyond minutes are
never non-zero in the embedded code). -/
structure PyDateTime where
  year : Nat
  month : Nat
  day : Nat
  hour : Nat
  minute : Nat
deriving DecidableEq, Repr

/-- A value that is dynamically either a `date` or a `datetime`. -/
inductive PyDateVal where
  | date : PyDate → PyDateVal
  | datetime : PyDateTime → PyDateVal
deriving DecidableEq, Repr

/-- CPython equality between date-like objects: a `datetime.datetime`
instance never compares equal to a plain `datetime.date`, even when the
year/month/day components agree. -/
def PyDateVal.pyEq : PyDateVal → PyDateVal → Bool
  | .date a, .date b => a = b
  | .datetime a, .datetime b => a = b
  | _, _ => false

/-- Gregorian leap-year rule used by `datetime`. -/
def isLeapYear (y : Nat) : Bool :=
  y % 4 = 0 && (y % 100 ≠ 0 || y % 400 = 0)

/-- Days in a month of the proleptic Gregorian calendar. -/
def daysInMonth (y m : Nat) : Nat :=
  if m = 2 then (if isLeapYear y then 29 else 28)
  else if m = 4 || m = 6 || m = 9 || m = 11 then 30
  else 31

/-- Numeric value of a run of ASCII digit characters. -/
def digitsVal (cs : List Char) : Nat :=
  cs.foldl (fun a c => a * 10 + (c.toNat - 48)) 0

/-- `datetime.datetime.strptime(s, "%Y")`: four digit characters giving a
year in `datetime`'s supported range; result is midnight Jan 1 of that
year.  Any mismatch raises `ValueError`. -/
def strptimeYear (s : String) : Except PyErr PyDateTime :=
  match s.data with
  | [a, b, c, d] =>
    if (a.isDigit && b.isDigit && c.isDigit && d.isDigit) then
      let y := digitsVal [a, b, c, d]
      if 1 ≤ y then .ok ⟨y, 1, 1, 0, 0⟩ else .error .valueError
    else .error .valueError
  | _ => .error .valueError

/-- `strptime(s, "%Y-%m")`. -/
def strptimeYearMonth (s : String) : Except PyErr PyDateTime :=
  match s.data with
  | [a, b, c, d, sep, e, f] =>
    if (a.isDigit && b.isDigit && c.isDigit && d.isDigit
        && sep = '-' && e.isDigit && f.isDigit) then
      let y := digitsVal [a, b, c, d]
      let m := digitsVal [e, f]
      if 1 ≤ y && 1 ≤ m && m ≤ 12 then .ok ⟨y, m, 1, 0, 0⟩
      else .error .valueError
    else .error .valueError
  | _ => .error .valueError

/-- `strptime(s, "%Y-%m-%d")`. -/
def strptimeYearMonthDay (s : String) : Except PyErr PyDateTime :=
  match s.data with
  | [a, b, c, d, sep1, e, f, sep2, g, h] =>
    if (a.isDigit && b.isDigit && c.isDigit && d.isDigit
        && sep1 = '-' && e.isDigit && f.isDigit
        && sep2 = '-' && g.isDigit && h.isDigit) then
      let y := digitsVal [a, b, c, d]
      let m := digitsVal [e, f]
      let dd := digitsVal [g, h]
      if 1 ≤ y && 1 ≤ m && m ≤ 12 && 1 ≤ dd && dd ≤ daysInMonth y m then
        .ok ⟨y, m, dd, 0, 0⟩
      else .error .valueError
    else .error .valueError
  | _ => .error .valueError

/-- `Util.to_begin_or_end` (util.py lines 44-54).  Note the source returns
`datetime.datetime(...)` objects, not `datetime.date` objects, despite its
annotation. -/
def toBeginOrEnd (option : String) : Except PyErr PyDateVal :=
  if option = "begin" then .ok (.datetime ⟨1, 1, 1, 0, 0⟩)
  else if option = "end" then .ok (.datetime ⟨9999, 12, 31, 0, 0⟩)
  else .error .valueError

/-- `Util.to_date` (util.py lines 56-79).  The parsing branch converts the
parsed `datetime` to a `date` via `.date()`; the begin-or-end branch
returns `to_begin_or_end`'s `datetime` unconverted. -/
def toDate (beginOrEnd : Option String) (dateStr : Option String) :
    Except PyErr PyDateVal :=
  match dateStr, beginOrEnd with
  | none, none => .error .valueError
  | none, some b => toBeginOrEnd b
  | some s, _ =>
    let parsed : Except PyErr PyDateTime :=
      if s.length = 4 then strptimeYear s
      else if s.length = 7 then strptimeYearMonth s
      else if s.length = 10 then strptimeYearMonthDay s
      else .error .valueError
    match parsed with
    | .ok dt => .ok (.date ⟨dt.year, dt.month, dt.day⟩)
    | .error e => .error e

/-! ## The image resolution pipeline (api/util.py lines 86-242)

External HTTP services are oracle functions collected in `NetEnv`:
`caaImage` models `MusicBrainz.get_image` (which catches all of its own
errors and returns bytes or `None`; a CoverArtArchive timeout surfaces to
`Util.get_caa_image` the same way as a missing image, namely as the
`except Exception` arm of the caller, so it is folded into `none` here),
`fetch` models `requests.get` with the response's truthiness (`None` for
a falsy/非-2xx response), and the three `discogs*` oracles model the
`Discogs.get_*_image_url` lookups, which catch their own request errors
and return a URL or `None`. -/

/-- Raw image bytes. -/
abbrev Bytes := List Nat

/-- Oracles for the external services consumed by the image pipeline. -/
structure NetEnv where
  caaImage : String → Option Bytes
  fetch : String → Option Bytes
  discogsReleaseUrl : Option String → Option String → Option String
  discogsArtistUrl : Option String → Option String
  discogsLabelUrl : Option String → Option String

/-- `JPEG_HEADER` (util.py line 12). -/
def jpegHeader : Bytes := [0xff, 0xd8, 0xff]

/-- `PNG_HEADER` (util.py line 13). -/
def pngHeader : Bytes := [0x89, 0x50, 0x4e, 0x47, 0x0d, 0x0a, 0x1a, 0x0a]

/-- `VALID_TYPES` (util.py line 15). -/
def validTypes : List String := ["release", "artist", "label"]

/-- `IMG_BASE_PATH` (util.py line 28). -/
def imgBasePath : String := "./databass/static/img"

/-- `SUPPORTED_EXTENSIONS` (util.py lines 22-27).  The source is a Python
set literal; its iteration order is unspecified, but the four extensions
can only overlap on URLs that contain several of them, so a fixed order is
used here. -/
def supportedExtensions : List String := [".jpg", ".jpeg", ".png", ".webp"]

/-- Python truthiness of an optional string (`None` and `""` are falsy). -/
def strOptTruthy (o : Option String) : Bool :=
  match o with
  | some s => s ≠ ""
  | none => false

/-- `Util.get_image_type_from_bytes` (util.py lines 98-112). -/
def getImageTypeFromBytes (b : Bytes) : Except PyErr String :=
  if b.length < 8 then .error .valueError
  else if b.take 3 = jpegHeader then .ok ".jpg"
  else if b.take 8 = pngHeader then .ok ".png"
  else .error .valueError

/-- `Util.get_image_type_from_url` (util.py lines 86-96). -/
def getImageTypeFromUrl (url : String) : Except PyErr String :=
  let lowered := lowerChars url
  match supportedExtensions.find? (fun ext => listHasRun ext.data lowered) with
  | some ext => .ok ext
  | none => .error .valueError

/-- `Util.write_image` (util.py lines 233-242): builds the storage path
and strips the `databass/` prefix from the returned path. -/
def writeImage (entityType : String) (entityId : Nat) (imgType : String) :
    String :=
  (imgBasePath ++ "/" ++ entityType ++ "/" ++ toString entityId ++ imgType).replace
    "databass/" ""

/-- `Util.get_image_from_url` (util.py lines 114-127).  A falsy response
makes the function fall through and implicitly return `None`. -/
def getImageFromUrl (env : NetEnv) (url : String) (entityType : String)
    (entityId : Nat) : Except PyErr (Option String) :=
  match env.fetch url with
  | some _content =>
    match getImageTypeFromUrl url with
    | .ok ext =>
      .ok (some ((imgBasePath ++ "/" ++ entityType ++ "/" ++ toString entityId
        ++ ext).replace "databass/" ""))
    | .error e => .error e
  | none => .ok none

/-- `Util.get_caa_image` (util.py lines 129-149): raises `ValueError` when
the archive returns nothing, otherwise sniffs the byte signature (which
itself raises on unsupported bytes). -/
def getCaaImage (env : NetEnv) (mbid : String) :
    Except PyErr (Bytes × String) :=
  match env.caaImage mbid with
  | some img =>
    match getImageTypeFromBytes img with
    | .ok t => .ok (img, t)
    | .error e => .error e
  | none => .error .valueError

/-- `Util.get_discogs_image` (util.py lines 151-183), as it would behave
if it were ever invoked with its four declared parameters: look up an
image URL for the entity, return `{}` (here `none`) when the type is
unrecognized or no URL is found, otherwise download and sniff the bytes
(unsupported bytes raise). -/
def getDiscogsImage (env : NetEnv) (entityType : String)
    (releaseName artistName labelName : Option String) :
    Except PyErr (Option (Bytes × String)) :=
  let imgUrl : Option (Option String) :=
    if entityType = "release" then some (env.discogsReleaseUrl releaseName artistName)
    else if entityType = "artist" then some (env.discogsArtistUrl artistName)
    else if entityType = "label" then some (env.discogsLabelUrl labelName)
    else none
  match imgUrl with
  | none => .ok none
  | some none => .ok none
  | some (some u) =>
    let img := (env.fetch u).getD []
    match getImageTypeFromBytes img with
    | .ok t => .ok (some (img, t))
    | .error e => .error e

/-- The `else` arm of `Util.get_image` (util.py lines 219-223): the source
reads `discogs_image = Util.get_discogs_image()` — the call omits all four
required positional parameters of `get_discogs_image`, so Python raises
`TypeError` at the call site, before any network activity and before the
`img`/`img_type` bindings of lines 222-223 are ever made. -/
def getImageDiscogsArm : Except PyErr (Option String) :=
  .error .typeError

/-- `Util.get_image` (util.py lines 185-231).  The recursive call inside
the `except` arm of the CoverArtArchive attempt passes `mbid=None` and
`url=None`, so it reduces to the entity-type validation (already known to
pass) followed by `getImageDiscogsArm`; that inner call's exception
propagates out of the `except` handler.  If the inner call were to return
normally, control would reach line 225 with the local `img` never
assigned, raising `UnboundLocalError`. -/
def getImage (env : NetEnv) (entityType : String) (entityId : Nat)
    (mbid : Option String) (releaseName artistName labelName : Option String)
    (url : Option String) : Except PyErr (Option String) :=
  if ¬ (entityType ∈ validTypes) then .error .valueError
  else if strOptTruthy url then
    getImageFromUrl env (url.getD "") entityType entityId
  else
    match mbid with
    | some m =>
      if entityType = "release" then
        match getCaaImage env m with
        | .ok (_img, imgType) => .ok (some (writeImage entityType entityId imgType))
        | .error _ =>
          match getImageDiscogsArm with
          | .error e => .error e
          | .ok _ => .error .unboundLocalError
      else getImageDiscogsArm
    | none => getImageDiscogsArm

/-! ## Relational model (db/models.py)

Tables are lists of row structures; a query without `ORDER BY` returns
rows in the (unspecified, hence arbitrary) storage order of the list.
Dates and datetimes stored in columns are abstracted to integers, which
preserves the ordering structure the queries rely on. -/

/-- A row of the `release` table. -/
structure ReleaseRow where
  id : Nat
  mbid : Option String
  name : String
  artistId : Nat
  labelId : Nat
  year : Int
  runtime : Int
  rating : Int
  listenDate : Int
  trackCount : Int
  mainGenreId : Nat
  image : Option String
  country : Option String
deriving DecidableEq, Repr

/-- A row of the `artist` or `label` table (the shared `ArtistOrLabel`
shape). -/
structure AoLRow where
  id : Nat
  mbid : Option String
  name : String
  image : Option String
  country : Option String
  kindName : Option String
  beginDate : Option Int
  endDate : Option Int
deriving DecidableEq, Repr

/-- A row of the `genre` table. -/
structure GenreRow where
  id : Nat
  name : String
deriving DecidableEq, Repr

/-- The database state visible to `Release.dynamic_search`. -/
structure Db where
  artists : List AoLRow
  labels : List AoLRow
  releases : List ReleaseRow
  genres : List GenreRow
deriving Repr

/-- A dynamically typed value of a search-form mapping. -/
inductive SVal where
  | str : String → SVal
  | int : Int → SVal
  | strList : List String → SVal
deriving DecidableEq, Repr

/-- A Python dict of search criteria, as an association list (Python
dicts have unique keys; lookup takes the first binding). -/
abbrev Dict := List (String × SVal)

/-- `data[k]` lookup; `none` means the access would raise `KeyError`. -/
def Dict.lookup (d : Dict) (k : String) : Option SVal :=
  (d.find? (fun kv => kv.1 = k)).map (fun kv => kv.2)

/-- Numeric reading of a search value (SQL coerces the comparison value;
a non-numeric value simply matches nothing in this model — the claims
never depend on that corner). -/
def SVal.asInt : SVal → Option Int
  | .int n => some n
  | .str s => s.toInt?
  | .strList _ => none

/-- SQL equality of a nullable text column against a search value
(`NULL = x` is never true). -/
def colEqSVal (c : Option String) (v : SVal) : Bool :=
  match c, v with
  | some s, .str t => s = t
  | _, _ => false

/-- Comparison of a nullable numeric column against a search value;
`NULL` compares false. -/
def colCmp (c : Option Int) (op : Int → Int → Bool) (v : SVal) : Bool :=
  match c, v.asInt with
  | some x, some n => op x n
  | _, _ => false

/-- Modelled from the spec: `apply_comparison_filter` from the
repository's `databass/db/util.py`, which is not among the provided
sources.  Spec §4.1: given a query, a field, a comparison operator and a
value, return the query with the predicate `field <op> value` applied for
an operator among `<`, `=`, `>`; any unrecognized operator must raise a
descriptive error rather than silently applying equality. -/
def applyComparisonFilter (rows : List α) (field : α → Option Int)
    (operator : SVal) (value : SVal) : Except PyErr (List α) :=
  if operator = .str "<" then
    .ok (rows.filter (fun r => colCmp (field r) (· < ·) value))
  else if operator = .str "=" then
    .ok (rows.filter (fun r => colCmp (field r) (· = ·) value))
  else if operator = .str ">" then
    .ok (rows.filter (fun r => colCmp (field r) (· > ·) value))
  else .error .valueError

/-- `MusicBrainzEntity.id_by_matching_name` (models.py lines 211-229):
ids of all rows whose name contains the argument case-insensitively; a
non-string argument yields `[]`. -/
def idByMatchingName (rows : List AoLRow) (v : SVal) : List Nat :=
  match v with
  | .str s => (rows.filter (fun r => ilikeContains r.name s)).map (fun r => r.id)
  | _ => []

/-- `search_keys` of `Release.dynamic_search` (models.py lines 424-432). -/
def releaseSearchKeys : List String :=
  ["name", "artist", "country", "main_genre", "label", "rating", "year"]

/-- One iteration of the `for key, value in data.items()` loop of
`Release.dynamic_search` (models.py lines 433-458). -/
def releaseApplyFilter (db : Db) (data : Dict) (rows : List ReleaseRow)
    (kv : String × SVal) : Except PyErr (List ReleaseRow) :=
  let key := kv.1
  let value := kv.2
  if value = .str "" ∨ value = .strList [""] ∨ ¬ (key ∈ releaseSearchKeys) then
    .ok rows
  else if key = "name" then
    match value with
    | .str s => .ok (rows.filter (fun r => ilikeContains r.name s))
    | _ => .ok rows
  else if key = "artist" then
    let artistIds := idByMatchingName db.artists value
    .ok (rows.filter (fun r => r.artistId ∈ artistIds))
  else if key = "label" then
    let labelIds := idByMatchingName db.labels value
    .ok (rows.filter (fun r => r.labelId ∈ labelIds))
  else if key = "rating" then
    match data.lookup "rating_comparison" with
    | none => .error .keyError
    | some operator =>
      applyComparisonFilter rows (fun r => some r.rating) operator value
  else if key = "year" then
    match data.lookup "year_comparison" with
    | none => .error .keyError
    | some operator =>
      applyComparisonFilter rows (fun r => some r.year) operator value
  else if key = "main_genre" then
    .ok (rows.filter (fun r =>
      db.genres.any (fun g => g.id = r.mainGenreId && colEqSVal (some g.name) value)))
  else
    -- generic handler; among the allow-listed keys only "country" reaches it
    .ok (rows.filter (fun r => colEqSVal r.country value))

/-- Ascending sort of release rows by primary key, the final
`query.order_by(cls.id)` of models.py line 459. -/
def sortReleasesById (rows : List ReleaseRow) : List ReleaseRow :=
  List.insertionSort (fun a b => a.id ≤ b.id) rows

/-- `Release.dynamic_search` (models.py lines 408-460). -/
def releaseDynamicSearch (db : Db) (data : Dict) :
    Except PyErr (List ReleaseRow) :=
  match data.foldlM (releaseApplyFilter db data) db.releases with
  | .ok rows => .ok (sortReleasesById rows)
  | .error e => .error e

/-- `search_keys` of `ArtistOrLabel.dynamic_search` (models.py line 785). -/
def aolSearchKeys : List String :=
  ["name", "begin_date", "end_date", "country", "type"]

/-- The placeholder names excluded by the final `.where` chain of
`ArtistOrLabel.dynamic_search` (models.py lines 812-816). -/
def aolNonSentinel (r : AoLRow) : Bool :=
  r.name ≠ "[NONE]" && r.name ≠ "[no label]" && r.name ≠ "Various Artists"

/-- One iteration of the filter loop of `ArtistOrLabel.dynamic_search`
(models.py lines 786-810).  Note the skip condition here tests only
`value == ""` (line 787), and the comparison operator for the date fields
is validated inline before `apply_comparison_filter` is called. -/
def aolApplyFilter (filters : Dict) (rows : List AoLRow)
    (kv : String × SVal) : Except PyErr (List AoLRow) :=
  let key := kv.1
  let value := kv.2
  if value = .str "" ∨ ¬ (key ∈ aolSearchKeys) then
    .ok rows
  else if key = "name" then
    match value with
    | .str s => .ok (rows.filter (fun r => ilikeContains r.name s))
    | _ => .ok rows
  else if key = "begin_date" then
    match filters.lookup "begin_comparison" with
    | none => .error .keyError
    | some operator =>
      if ¬ (operator = .str "<" ∨ operator = .str "=" ∨ operator = .str ">") then
        .error .valueError
      else applyComparisonFilter rows (fun r => r.beginDate) operator value
  else if key = "end_date" then
    match filters.lookup "end_comparison" with
    | none => .error .keyError
    | some operator =>
      if ¬ (operator = .str "<" ∨ operator = .str "=" ∨ operator = .str ">") then
        .error .valueError
      else applyComparisonFilter rows (fun r => r.endDate) operator value
  else if key = "country" then
    .ok (rows.filter (fun r => colEqSVal r.country value))
  else
    -- generic handler; the remaining allow-listed key is "type"
    .ok (rows.filter (fun r => colEqSVal r.kindName value))

/-- `ArtistOrLabel.dynamic_search` (models.py lines 763-818): the filter
loop, then the sentinel-name exclusion — and no `ORDER BY`, so rows come
back in storage order. -/
def aolDynamicSearch (table : List AoLRow) (filters : Dict) :
    Except PyErr (List AoLRow) :=
  match filters.foldlM (aolApplyFilter filters) table with
  | .ok rows => .ok (rows.filter aolNonSentinel)
  | .error e => .error e

/-! ## Statistics aggregator (models.py lines 301-353 and 575-663) -/

/-- Inner join of an artist/label table with the release table on
`relation_id == cls.id`. -/
def joinPairs (ents : List AoLRow) (rels : List ReleaseRow)
    (relId : ReleaseRow → Nat) : List (AoLRow × ReleaseRow) :=
  ents.flatMap (fun a => (rels.filter (fun r => relId r = a.id)).map (fun r => (a, r)))

/-- A result row of `frequency_highest`. -/
structure FreqRow where
  name : String
  count : Nat
  image : Option String
deriving DecidableEq, Repr

/-- A result row of `average_ratings_and_total_counts`.  The SQL
`AVG(rating)` is the exact rational `sum / count`; it is carried here as
the unreduced pair `(sum, count)` with `count > 0`, and fractions are
compared by cross-multiplication (`fracLe`), which agrees with the
rational order because the denominators are positive. -/
structure AvgRow where
  id : Nat
  name : String
  averageRating : Int × Nat
  releaseCount : Nat
  image : Option String
deriving DecidableEq, Repr

/-- `x ≤ y` for fractions with positive denominators, by
cross-multiplication. -/
def fracLe (x y : Int × Nat) : Bool :=
  x.1 * (y.2 : Int) ≤ y.1 * (x.2 : Int)

/-- `ArtistOrLabel.frequency_highest` (models.py lines 575-619): join
with releases, exclude the names `"[NONE]"`, `"Various Artists"`, `""`
and `"[no label]"`, group by `(name, image)`, order by count descending,
take `limit`.  A non-positive limit raises `ValueError`. -/
def frequencyHighest (ents : List AoLRow) (rels : List ReleaseRow)
    (relId : ReleaseRow → Nat) (limit : Int) : Except PyErr (List FreqRow) :=
  if limit ≤ 0 then .error .valueError
  else
    let pairs := (joinPairs ents rels relId).filter
      (fun p => ¬ (p.1.name ∈ ["[NONE]", "Various Artists", "", "[no label]"]))
    let keys := (pairs.map (fun p => (p.1.name, p.1.image))).dedup
    let rows := keys.map (fun k =>
      FreqRow.mk k.1
        ((pairs.filter (fun p => p.1.name = k.1 ∧ p.1.image = k.2)).length) k.2)
    .ok ((List.insertionSort (fun a b => b.count ≤ a.count) rows).take limit.toNat)

/-- `ArtistOrLabel.average_ratings_and_total_counts` (models.py lines
621-663): join with releases, exclude only the names `"[NONE]"` and
`"Various Artists"`, group by `(name, id)`, keep groups with more than
one release, order by average rating descending. -/
def averageRatingsAndTotalCounts (ents : List AoLRow)
    (rels : List ReleaseRow) (relId : ReleaseRow → Nat) : List AvgRow :=
  let pairs := (joinPairs ents rels relId).filter
    (fun p => ¬ (p.1.name ∈ ["[NONE]", "Various Artists"]))
  let keys := (pairs.map (fun p => (p.1.name, p.1.id, p.1.image))).dedup
  let rows := keys.map (fun k =>
    let grp := pairs.filter (fun p => p.1.name = k.1 ∧ p.1.id = k.2.1)
    AvgRow.mk k.2.1 k.1
      ((grp.map (fun p => p.2.rating)).sum, grp.length)
      grp.length k.2.2)
  let kept := rows.filter (fun r => 1 < r.releaseCount)
  List.insertionSort (fun a b => fracLe b.averageRating a.averageRating) kept

/-! ## `Release.ratings_lowest` / `ratings_highest` (models.py 301-353)

These are written with the legacy SQLAlchemy `Query` API, which forbids
calling `.order_by()` on a query that already has a LIMIT or OFFSET
applied: `Query.order_by` carries the `_no_limit_offset` assertion and
raises `sqlalchemy.exc.InvalidRequestError` in that case.  The tiny query
model below records whether a limit has been applied. -/

/-- The projected columns of the two ratings queries. -/
structure RatingRow where
  id : Nat
  name : String
  rating : Int
  artistId : Nat
  labelId : Nat
deriving DecidableEq, Repr

/-- A legacy SQLAlchemy `Query` holding result rows and whether
`.limit()` has already been applied. -/
structure SaQuery (α : Type) where
  rows : List α
  hasLimit : Bool
deriving Repr

/-- `Query.limit(n)`. -/
def SaQuery.limitBy (q : SaQuery α) (n : Nat) : SaQuery α :=
  ⟨q.rows.take n, true⟩

/-- `Query.order_by(criterion)`: raises `InvalidRequestError` when the
query already has a LIMIT or OFFSET applied (SQLAlchemy's
`_no_limit_offset` assertion), otherwise sorts. -/
def SaQuery.orderBy (q : SaQuery α) (le : α → α → Bool) :
    Except PyErr (SaQuery α) :=
  if q.hasLimit then .error .invalidRequestError
  else .ok ⟨List.insertionSort (fun a b => le a b) q.rows, false⟩

/-- The column projection shared by both ratings queries. -/
def ratingProjection (rels : List ReleaseRow) : List RatingRow :=
  rels.map (fun r => ⟨r.id, r.name, r.rating, r.artistId, r.labelId⟩)

/-- `Release.ratings_lowest` (models.py lines 301-326): validates the
limit, then builds `query.limit(limit).order_by(rating.asc()).all()` —
in that order. -/
def ratingsLowest (rels : List ReleaseRow) (limit : Int) :
    Except PyErr (List RatingRow) :=
  if limit ≤ 0 then .error .valueError
  else
    match (SaQuery.mk (ratingProjection rels) false).limitBy limit.toNat
        |>.orderBy (fun a b => a.rating ≤ b.rating) with
    | .ok q => .ok q.rows
    | .error e => .error e

/-- `Release.ratings_highest` (models.py lines 328-353): same shape with
a descending order criterion. -/
def ratingsHighest (rels : List ReleaseRow) (limit : Int) :
    Except PyErr (List RatingRow) :=
  if limit ≤ 0 then .error .valueError
  else
    match (SaQuery.mk (ratingProjection rels) false).limitBy limit.toNat
        |>.orderBy (fun a b => b.rating ≤ a.rating) with
    | .ok q => .ok q.rows
    | .error e => .error e

/-! ## Entity resolution / upsert (models.py lines 66-89, 172-192,
820-887)

`db/operations.py` (`insert`, `construct_item`) is part of the repository
but absent from the provided sources; those two helpers are modelled from
the spec where marked.  The external catalog (`MusicBrainz.label_search`
or `artist_search`) is an oracle taking the name and optional mbid and
returning a parsed entity or `None`. -/

/-- The parsed catalog result (`EntityInfo` built by
`MbzParser.parse_search_result`, musicbrainz.py lines 103-141); it always
carries an `mbid` key. -/
structure EntityInfo where
  name : String
  mbid : Option String
  beginDate : Option Int
  endDate : Option Int
  country : Option String
  kindName : Option String
deriving DecidableEq, Repr

/-- The value bound to `item_search` in `create_if_not_exist`: either a
catalog result dict (which has an `"mbid"` key) or the literal fallback
dict `{"name": name}` of models.py lines 846/851 (which has no `"mbid"`
key). -/
inductive ItemSearch where
  | found : EntityInfo → ItemSearch
  | nameOnly : String → ItemSearch
deriving DecidableEq, Repr

/-- `item_search["mbid"]` (models.py line 859): a dict access that raises
`KeyError` on the name-only fallback dict. -/
def ItemSearch.mbidKey : ItemSearch → Except PyErr (Option String)
  | .found e => .ok e.mbid
  | .nameOnly _ => .error .keyError

/-- SQLAlchemy `Query.one_or_none()` on the rows matched by a filter. -/
def oneOrNone (l : List α) : Except PyErr (Option α) :=
  match l with
  | [] => .ok none
  | [x] => .ok (some x)
  | _ => .error .multipleResultsFound

/-- `Base.exists_by_name` (models.py lines 66-89): fuzzy case-insensitive
substring match; `one_or_none`, and on `MultipleResultsFound` the
`except` arm re-runs the query with `.first()`, returning the first
matching row in storage order. -/
def existsByName (rows : List AoLRow) (name : String) : Option AoLRow :=
  if name = "" then none
  else
    match oneOrNone (rows.filter (fun r => ilikeContains r.name name)) with
    | .ok r => r
    | .error _ => (rows.filter (fun r => ilikeContains r.name name)).head?

/-- `MusicBrainzEntity.exists_by_mbid` (models.py lines 172-192): falsy
or missing mbid gives `None`; `one_or_none` with every exception
downgraded to `None`. -/
def existsByMbid (rows : List AoLRow) (mbid : Option String) : Option AoLRow :=
  match mbid with
  | none => none
  | some m =>
    if m = "" then none
    else
      match oneOrNone (rows.filter (fun r => r.mbid = some m)) with
      | .ok r => r
      | .error _ => none

/-- Which concrete `ArtistOrLabel` subclass a call is made on. -/
inductive AoLKind where
  | artist
  | label
deriving DecidableEq, Repr

/-- An artist or label table together with its primary-key sequence. -/
structure AoLTable where
  rows : List AoLRow
  nextId : Nat
deriving Repr

/-- Modelled from the spec: `construct_item` from the repository's
`databass/db/operations.py` (not among the provided sources), which
builds a model object from a data dict — here an `AoLRow` carrying the
fields of the catalog result, or only the name for the fallback dict; the
primary key is assigned at insert time. -/
def constructItem (item : ItemSearch) : Nat → AoLRow :=
  match item with
  | .found e => fun i =>
    ⟨i, e.mbid, e.name, none, e.country, e.kindName, e.beginDate, e.endDate⟩
  | .nameOnly n => fun i => ⟨i, none, n, none, none, none, none, none⟩

/-- Modelled from the spec: `insert` from `databass/db/operations.py`
(not among the provided sources), which persists the constructed item and
returns the assigned primary key. -/
def insertRow (st : AoLTable) (mk : Nat → AoLRow) : Nat × AoLTable :=
  (st.nextId, ⟨st.rows ++ [mk st.nextId], st.nextId + 1⟩)

/-- `ArtistOrLabel.create_if_not_exist` (models.py lines 820-887) as a
state transition on the class's table.  The returned pair separates the
call's outcome (`Except`) from the table state afterwards, because a row
inserted before a later exception stays persisted.  The trailing
`Util.get_image` call passes `mbid=None` and `url=None` together with the
entity name, exactly as at models.py lines 866-885. -/
def createIfNotExist (env : NetEnv)
    (catalog : String → Option String → Option EntityInfo) (kind : AoLKind)
    (name : String) (mbid : Option String) (st : AoLTable) :
    Except PyErr Nat × AoLTable :=
  match existsByMbid st.rows mbid with
  | some row => (.ok row.id, st)
  | none =>
    match existsByName st.rows name with
    | some row => (.ok row.id, st)
    | none =>
      let itemSearch : ItemSearch :=
        match catalog name mbid with
        | some e => .found e
        | none => .nameOnly name
      let newItem := constructItem itemSearch
      let afterInsert : Except PyErr Nat × AoLTable :=
        let (itemId, st2) := insertRow st newItem
        let imgCall :=
          match kind with
          | .label => getImage env "label" itemId none none none (some name) none
          | .artist => getImage env "artist" itemId none none (some name) none none
        match imgCall with
        | .error e => (.error e, st2)
        | .ok _ => (.ok itemId, st2)
      match itemSearch.mbidKey with
      | .error e => (.error e, st)
      | .ok foundMbid =>
        if strOptTruthy foundMbid then
          match existsByMbid st.rows foundMbid with
          | some row => (.ok row.id, st)
          | none => afterInsert
        else afterInsert

/-! ## Goal progress tracker (models.py lines 918-991) -/

/-- A row of the `goal` table; timestamps abstracted to integers. -/
structure GoalRow where
  id : Nat
  start : Int
  endTarget : Int
  completed : Option Int
  kindName : String
  amount : Int
deriving DecidableEq, Repr

/-- `Goal.new_releases_since_start_date` (models.py lines 926-936): count
of releases with `listen_date >= goal.start`. -/
def newReleasesSinceStart (rels : List ReleaseRow) (g : GoalRow) : Nat :=
  (rels.filter (fun r => g.start ≤ r.listenDate)).length

/-- `Goal.update_goal` (models.py lines 938-953): for a goal of type
`"release"` whose qualifying count has reached the target, stamp
`completed` with the current time. -/
def updateGoal (now : Int) (rels : List ReleaseRow) (g : GoalRow) : GoalRow :=
  if g.kindName = "release" ∧ g.amount ≤ (newReleasesSinceStart rels g : Int) then
    { g with completed := some now }
  else g

/-- The effect of one `check_goals` pass on a single stored goal:
`get_incomplete` selects only goals with a null `completed`, each is
re-evaluated by `update_goal`, and newly completed ones are persisted via
`operations.update`; goals already complete are never part of the
iteration. -/
def stepGoal (now : Int) (rels : List ReleaseRow) (g : GoalRow) : GoalRow :=
  if g.completed = none then updateGoal now rels g else g

/-- `Goal.check_goals` (models.py lines 975-991) as a transition on the
goal table. -/
def checkGoals (now : Int) (rels : List ReleaseRow)
    (goals : List GoalRow) : List GoalRow :=
  goals.map (stepGoal now rels)

/-! ## Shared concrete states and helper lemmas for the theorems -/

/-- A network environment in which every external lookup fails. -/
def env0 : NetEnv :=
  ⟨fun _ => none, fun _ => none, fun _ _ => none, fun _ => none, fun _ => none⟩

/-- A release row with the given id, label id and rating; the remaining
columns take fixed harmless values. -/
def sampleRelease (i lbl : Nat) (rating : Int) : ReleaseRow :=
  ⟨i, none, "Album", 1, lbl, 2020, 0, rating, 0, 0, 1, none, none⟩

/-- An artist/label row with the given id and name. -/
def sampleAoL (i : Nat) (n : String) : AoLRow :=
  ⟨i, none, n, none, none, none, none, none⟩

instance : IsTotal ReleaseRow (fun a b => a.id ≤ b.id) :=
  ⟨fun a b => Nat.le_total a.id b.id⟩

instance : IsTrans ReleaseRow (fun a b => a.id ≤ b.id) :=
  ⟨fun _ _ _ h1 h2 => Nat.le_trans h1 h2⟩

/-- Did an embedded call raise? -/
def exceptErrored : Except PyErr α → Bool
  | .error _ => true
  | .ok _ => false

/-- If some element of the list makes the folded step fail from every
accumulator, the monadic fold over `Except` fails. -/
theorem foldlM_except_error {ε α β : Type} (f : β → α → Except ε β)
    (l : List α) (a : α) (ha : a ∈ l)
    (h : ∀ b, ∃ e, f b a = Except.error e) :
    ∀ init, ∃ e, l.foldlM f init = Except.error e := by
  induction l with
  | nil => cases ha
  | cons x xs ih =>
    intro init
    rcases List.mem_cons.mp ha with rfl | hmem
    · obtain ⟨e, he⟩ := h init
      refine ⟨e, ?_⟩
      rw [List.foldlM_cons, he]
      rfl
    · cases hfx : f init x with
      | error e =>
        refine ⟨e, ?_⟩
        rw [List.foldlM_cons, hfx]
        rfl
      | ok b =>
        obtain ⟨e, he⟩ := ih hmem b
        refine ⟨e, ?_⟩
        rw [List.foldlM_cons, hfx]
        exact he

/-- C6: `to_date` parses valid date strings of length 4/7/10 at
year/month/day precision, raises on other lengths, and raises on
`to_date(None, None)` — all as claimed — but `to_date("begin", None)` and
`to_date("end", None)` return `datetime.datetime` objects (the
`to_begin_or_end` branch skips the `.date()` conversion applied in the
parse branch), and in CPython a `datetime` never compares equal to a
`date`, so the claimed equalities with `date(1,1,1)` and
`date(9999,12,31)` fail — contradicting the repository's own test
`test_begin_end_without_date`. -/
theorem c6_to_date_begin_is_datetime_not_date :
    toDate none none = .error .valueError
    ∧ toDate (some "begin") none = .ok (.datetime ⟨1, 1, 1, 0, 0⟩)
    ∧ toDate (some "end") none = .ok (.datetime ⟨9999, 12, 31, 0, 0⟩)
    ∧ PyDateVal.pyEq (.datetime ⟨1, 1, 1, 0, 0⟩) (.date ⟨1, 1, 1⟩) = false
    ∧ PyDateVal.pyEq (.datetime ⟨9999, 12, 31, 0, 0⟩) (.date ⟨9999, 12, 31⟩) = false
    ∧ toDate none (some "2023") = .ok (.date ⟨2023, 1, 1⟩)
    ∧ toDate none (some "2023-06") = .ok (.date ⟨2023, 6, 1⟩)
    ∧ toDate none (some "2023-06-15") = .ok (.date ⟨2023, 6, 15⟩)
    ∧ toDate none (some "202") = .error .valueError
    ∧ toDate none (some "2023/06/15") = .error .valueError := by
  refine ⟨rfl, rfl, rfl, rfl, rfl, ?_, ?_, ?_, ?_, ?_⟩ <;> rfl

/-- C1: with no explicit URL, a failure of the primary CoverArtArchive
attempt does not yield `None`: the fallback arm invokes
`Util.get_discogs_image()` with none of its four required arguments, so
every fallback path raises `TypeError` — both for a release whose archive
lookup fails and for any artist/label call (which starts directly in the
fallback arm). -/
theorem c1_get_image_fallback_raises :
    getImage env0 "release" 2 (some "mbid-1") (some "Rel") (some "Art") none none
      = .error .typeError
    ∧ getImage env0 "artist" 1 none none (some "Some Artist") none none
      = .error .typeError
    ∧ getImage env0 "label" 3 none none none (some "Some Label") none
      = .error .typeError := by
  refine ⟨?_, ?_, ?_⟩ <;> rfl

/-- C5: `ratings_lowest` and `ratings_highest` apply `.limit(limit)`
before `.order_by(...)`; SQLAlchemy's legacy `Query.order_by` refuses a
query that already has a LIMIT applied, so every call with a valid
positive limit raises `InvalidRequestError` instead of returning the
lowest/highest rated releases.  Only the claimed `ValueError` on a
non-positive limit holds. -/
theorem c5_ratings_order_by_after_limit_raises :
    ratingsLowest [sampleRelease 1 1 50, sampleRelease 2 1 10, sampleRelease 3 1 30] 2
      = .error .invalidRequestError
    ∧ ratingsHighest [sampleRelease 1 1 50, sampleRelease 2 1 10, sampleRelease 3 1 30] 2
      = .error .invalidRequestError
    ∧ ratingsLowest [sampleRelease 1 1 50] 0 = .error .valueError
    ∧ ratingsHighest [sampleRelease 1 1 50] (-3) = .error .valueError := by
  refine ⟨?_, ?_, ?_, ?_⟩ <;> rfl

/-- C3: when nothing matches by mbid or fuzzy name and the external
catalog lookup returns nothing, `create_if_not_exist` binds
`item_search = {"name": name}` and then unconditionally evaluates
`item_search["mbid"]` (models.py line 859), which raises `KeyError` on
that one-key dict — no row is inserted and no id is returned, for both
the Label and the Artist class. -/
theorem c3_name_only_default_raises_keyerror :
    createIfNotExist env0 (fun _ _ => none) .label "Unseen Label" none ⟨[], 1⟩
      = (.error .keyError, ⟨[], 1⟩)
    ∧ createIfNotExist env0 (fun _ _ => none) .artist "Ghost" (some "Z9") ⟨[], 5⟩
      = (.error .keyError, ⟨[], 5⟩) := by
  exact ⟨rfl, rfl⟩

/-- Label table for the sentinel-exclusion counterexample: the
`"[no label]"` sentinel and one real label. -/
def c4Labels : List AoLRow := [sampleAoL 1 "[no label]", sampleAoL 2 "Good Label"]

/-- Two rated releases on each label of `c4Labels`. -/
def c4Rels : List ReleaseRow :=
  [sampleRelease 1 1 80, sampleRelease 2 1 60,
   sampleRelease 3 2 70, sampleRelease 4 2 50]

/-- C4: `frequency_highest` excludes all three placeholder names, but
`average_ratings_and_total_counts` only excludes `"[NONE]"` and
`"Various Artists"` (models.py line 655) — a `"[no label]"` sentinel with
two rated releases shows up in its results (even ranked first here),
contradicting the invariant that all aggregate queries exclude every
sentinel. -/
theorem c4_avg_query_includes_no_label_sentinel :
    (averageRatingsAndTotalCounts c4Labels c4Rels ReleaseRow.labelId).map AvgRow.name
      = ["[no label]", "Good Label"]
    ∧ frequencyHighest c4Labels c4Rels ReleaseRow.labelId 10
      = .ok [⟨"Good Label", 2, none⟩] := by
  exact ⟨rfl, rfl⟩

/-- A catalog oracle that finds an entity under the requested name and
mbid (the fetch-by-id path of `artist_search`). -/
def c8Catalog : String → Option String → Option EntityInfo :=
  fun n m => some ⟨n, m, none, none, none, none⟩

/-- The table state after the first `create_if_not_exist` call of the C8
scenario: the one inserted row. -/
def c8St1 : AoLTable :=
  ⟨[⟨1, some "X1", "Artist A", none, none, none, none, none⟩], 2⟩

/-- C8: the duplicate-suppression part of the claim holds — the second
call with the same external id finds the row by mbid and returns its id
with no catalog call and no insert — but the first call, after inserting
the row, invokes the image pipeline (models.py lines 876-885), whose
broken Discogs fallback raises `TypeError`; so the first call raises
instead of returning the new id, and the two calls do not both return the
same id. -/
theorem c8_first_call_raises_after_insert :
    createIfNotExist env0 c8Catalog .artist "Artist A" (some "X1") ⟨[], 1⟩
      = (.error .typeError, c8St1)
    ∧ createIfNotExist env0 c8Catalog .artist "Artist A" (some "X1") c8St1
      = (.ok 1, c8St1)
    ∧ c8St1.rows.length = 1 := by
  exact ⟨rfl, rfl, rfl⟩

/-- An artist table whose storage order is not ascending by id, plus a
sentinel row. -/
def c2Table : List AoLRow :=
  [sampleAoL 2 "Bravo", sampleAoL 1 "Alpha", sampleAoL 3 "[NONE]"]

/-- C2 counterexample: `ArtistOrLabel.dynamic_search` has no `ORDER BY`,
so with an empty filters mapping on a three-row artist table stored out
of id order it returns the rows in storage order `[2, 1]` — neither
ordered by id ascending nor all rows (the sentinel row is excluded even
with no filters). -/
theorem c2_aol_search_unordered_counterexample :
    aolDynamicSearch c2Table [] = .ok [sampleAoL 2 "Bravo", sampleAoL 1 "Alpha"]
    ∧ [sampleAoL 2 "Bravo", sampleAoL 1 "Alpha"].map AoLRow.id = [2, 1]
    ∧ ¬ List.Sorted (fun a b => a ≤ b) [2, 1]
    ∧ c2Table.length = 3 := by
  refine ⟨rfl, rfl, ?_, rfl⟩
  decide

/-- C2 (amended): `Release.dynamic_search` does return its results
ordered by id ascending, and with an empty filters mapping it returns all
release rows (as a permutation, sorted by id); but
`ArtistOrLabel.dynamic_search` applies no ordering — with an empty
filters mapping it returns exactly the non-sentinel rows in table storage
order. -/
theorem c2_release_ordered_aol_storage_order :
    (∀ db data l, releaseDynamicSearch db data = .ok l →
      List.Sorted (fun a b => a ≤ b) (l.map ReleaseRow.id))
    ∧ (∀ db l, releaseDynamicSearch db [] = .ok l → l.Perm db.releases)
    ∧ (∀ tbl, aolDynamicSearch tbl [] = .ok (tbl.filter aolNonSentinel)) := by
  refine ⟨?_, ?_, ?_⟩
  · intro db data l h
    unfold releaseDynamicSearch at h
    cases hf : List.foldlM (releaseApplyFilter db data) db.releases data with
    | error e => rw [hf] at h; cases h
    | ok rows =>
      rw [hf] at h
      injection h with h
      subst h
      have hs := List.sorted_insertionSort (fun a b : ReleaseRow => a.id ≤ b.id) rows
      simpa [sortReleasesById, List.Sorted, List.pairwise_map] using hs
  · intro db l h
    have h0 : releaseDynamicSearch db [] = .ok (sortReleasesById db.releases) := rfl
    rw [h0] at h
    injection h with h
    subst h
    exact List.perm_insertionSort _ _
  · intro tbl
    rfl

/-- The database for the C2 witness: two releases stored out of id
order. -/
def c2Db : Db := ⟨[], [], [sampleRelease 2 1 10, sampleRelease 1 1 50], []⟩

theorem c2_release_ordered_aol_storage_order_witness :
    releaseDynamicSearch c2Db [] = .ok (sortReleasesById c2Db.releases)
    ∧ List.Sorted (fun a b => a ≤ b)
        ((sortReleasesById c2Db.releases).map ReleaseRow.id)
    ∧ (sortReleasesById c2Db.releases).Perm c2Db.releases
    ∧ aolDynamicSearch c2Table [] = .ok (c2Table.filter aolNonSentinel) :=
  ⟨rfl,
   c2_release_ordered_aol_storage_order.1 c2Db [] (sortReleasesById c2Db.releases) rfl,
   c2_release_ordered_aol_storage_order.2.1 c2Db (sortReleasesById c2Db.releases) rfl,
   c2_release_ordered_aol_storage_order.2.2 c2Table⟩

/-- The operator values accepted by the comparison-filter applier. -/
def validCmpOp (v : SVal) : Prop :=
  v = .str "<" ∨ v = .str "=" ∨ v = .str ">"

/-- The companion comparison-operator key is missing from the mapping, or
carries an unrecognized operator value. -/
def badCompanion (d : Dict) (k : String) : Prop :=
  d.lookup k = none ∨ ∃ op, d.lookup k = some op ∧ ¬ validCmpOp op

theorem applyComparisonFilter_error {α : Type} (rows : List α)
    (field : α → Option Int) (op value : SVal) (h : ¬ validCmpOp op) :
    applyComparisonFilter rows field op value = .error .valueError := by
  unfold applyComparisonFilter
  rw [if_neg (fun hh => h (Or.inl hh)),
    if_neg (fun hh => h (Or.inr (Or.inl hh))),
    if_neg (fun hh => h (Or.inr (Or.inr hh)))]

theorem releaseApplyFilter_rating_error (db : Db) (data : Dict) (v : SVal)
    (h1 : v ≠ .str "") (h2 : v ≠ .strList [""])
    (hbad : badCompanion data "rating_comparison") (rows : List ReleaseRow) :
    ∃ e, releaseApplyFilter db data rows ("rating", v) = .error e := by
  have hskip : ¬(v = SVal.str "" ∨ v = SVal.strList [""]
      ∨ ¬("rating" ∈ releaseSearchKeys)) := by
    rintro (h | h | h)
    · exact h1 h
    · exact h2 h
    · exact h (by decide)
  rcases hbad with hnone | ⟨op, hop, hbadop⟩
  · refine ⟨.keyError, ?_⟩
    simp only [releaseApplyFilter]
    rw [if_neg hskip, hnone]
    simp
  · refine ⟨.valueError, ?_⟩
    simp only [releaseApplyFilter]
    rw [if_neg hskip, hop]
    simp [applyComparisonFilter_error rows (fun r => some r.rating) op v hbadop]

theorem releaseApplyFilter_year_error (db : Db) (data : Dict) (v : SVal)
    (h1 : v ≠ .str "") (h2 : v ≠ .strList [""])
    (hbad : badCompanion data "year_comparison") (rows : List ReleaseRow) :
    ∃ e, releaseApplyFilter db data rows ("year", v) = .error e := by
  have hskip : ¬(v = SVal.str "" ∨ v = SVal.strList [""]
      ∨ ¬("year" ∈ releaseSearchKeys)) := by
    rintro (h | h | h)
    · exact h1 h
    · exact h2 h
    · exact h (by decide)
  rcases hbad with hnone | ⟨op, hop, hbadop⟩
  · refine ⟨.keyError, ?_⟩
    simp only [releaseApplyFilter]
    rw [if_neg hskip, hnone]
    simp
  · refine ⟨.valueError, ?_⟩
    simp only [releaseApplyFilter]
    rw [if_neg hskip, hop]
    simp [applyComparisonFilter_error rows (fun r => some r.year) op v hbadop]

theorem aolApplyFilter_begin_error (filters : Dict) (v : SVal)
    (h1 : v ≠ .str "") (hbad : badCompanion filters "begin_comparison")
    (rows : List AoLRow) :
    ∃ e, aolApplyFilter filters rows ("begin_date", v) = .error e := by
  have hskip : ¬(v = SVal.str "" ∨ ¬("begin_date" ∈ aolSearchKeys)) := by
    rintro (h | h)
    · exact h1 h
    · exact h (by decide)
  rcases hbad with hnone | ⟨op, hop, hbadop⟩
  · refine ⟨.keyError, ?_⟩
    simp only [aolApplyFilter]
    rw [if_neg hskip, hnone]
    simp
  · refine ⟨.valueError, ?_⟩
    simp only [aolApplyFilter]
    rw [if_neg hskip, hop]
    have hb : ¬(op = SVal.str "<" ∨ op = SVal.str "=" ∨ op = SVal.str ">") := by
      simpa [validCmpOp] using hbadop
    simp [hb]

theorem aolApplyFilter_end_error (filters : Dict) (v : SVal)
    (h1 : v ≠ .str "") (hbad : badCompanion filters "end_comparison")
    (rows : List AoLRow) :
    ∃ e, aolApplyFilter filters rows ("end_date", v) = .error e := by
  have hskip : ¬(v = SVal.str "" ∨ ¬("end_date" ∈ aolSearchKeys)) := by
    rintro (h | h)
    · exact h1 h
    · exact h (by decide)
  rcases hbad with hnone | ⟨op, hop, hbadop⟩
  · refine ⟨.keyError, ?_⟩
    simp only [aolApplyFilter]
    rw [if_neg hskip, hnone]
    simp
  · refine ⟨.valueError, ?_⟩
    simp only [aolApplyFilter]
    rw [if_neg hskip, hop]
    have hb : ¬(op = SVal.str "<" ∨ op = SVal.str "=" ∨ op = SVal.str ">") := by
      simpa [validCmpOp] using hbadop
    simp [hb]

/-- From a successful `Dict` lookup, the literal key/value pair is a
member of the mapping. -/
theorem dict_lookup_mem {d : Dict} {k : String} {v : SVal}
    (h : d.lookup k = some v) : (k, v) ∈ d := by
  unfold Dict.lookup at h
  obtain ⟨kv, hfind, hv2⟩ := Option.map_eq_some'.mp h
  have hk : kv.1 = k := by
    have := List.find?_some hfind
    simpa using this
  have hmem := List.mem_of_find?_eq_some hfind
  have : kv = (k, v) := by
    cases kv
    simp_all
  rwa [this] at hmem

/-- C7: whenever a search mapping carries a numeric/range field with a
non-skipped value (`rating` or `year` for releases, `begin_date` or
`end_date` for artists/labels), a missing companion comparison-operator
key raises `KeyError` (the bare `data[...]` access) and an operator value
other than `<`, `=`, `>` raises `ValueError`; the filter is never applied
with a silently defaulted operator. -/
theorem c7_comparison_operator_required :
    (∀ (db : Db) (data : Dict) (v : SVal), data.lookup "rating" = some v →
      v ≠ .str "" → v ≠ .strList [""] → badCompanion data "rating_comparison" →
      exceptErrored (releaseDynamicSearch db data) = true)
    ∧ (∀ (db : Db) (data : Dict) (v : SVal), data.lookup "year" = some v →
      v ≠ .str "" → v ≠ .strList [""] → badCompanion data "year_comparison" →
      exceptErrored (releaseDynamicSearch db data) = true)
    ∧ (∀ (tbl : List AoLRow) (filters : Dict) (v : SVal),
      filters.lookup "begin_date" = some v → v ≠ .str "" →
      badCompanion filters "begin_comparison" →
      exceptErrored (aolDynamicSearch tbl filters) = true)
    ∧ (∀ (tbl : List AoLRow) (filters : Dict) (v : SVal),
      filters.lookup "end_date" = some v → v ≠ .str "" →
      badCompanion filters "end_comparison" →
      exceptErrored (aolDynamicSearch tbl filters) = true) := by
  refine ⟨?_, ?_, ?_, ?_⟩
  · intro db data v hv h1 h2 hbad
    obtain ⟨e, he⟩ := foldlM_except_error (releaseApplyFilter db data) data
      ("rating", v) (dict_lookup_mem hv)
      (releaseApplyFilter_rating_error db data v h1 h2 hbad) db.releases
    simp [releaseDynamicSearch, he, exceptErrored]
  · intro db data v hv h1 h2 hbad
    obtain ⟨e, he⟩ := foldlM_except_error (releaseApplyFilter db data) data
      ("year", v) (dict_lookup_mem hv)
      (releaseApplyFilter_year_error db data v h1 h2 hbad) db.releases
    simp [releaseDynamicSearch, he, exceptErrored]
  · intro tbl filters v hv h1 hbad
    obtain ⟨e, he⟩ := foldlM_except_error (aolApplyFilter filters) filters
      ("begin_date", v) (dict_lookup_mem hv)
      (aolApplyFilter_begin_error filters v h1 hbad) tbl
    simp [aolDynamicSearch, he, exceptErrored]
  · intro tbl filters v hv h1 hbad
    obtain ⟨e, he⟩ := foldlM_except_error (aolApplyFilter filters) filters
      ("end_date", v) (dict_lookup_mem hv)
      (aolApplyFilter_end_error filters v h1 hbad) tbl
    simp [aolDynamicSearch, he, exceptErrored]

theorem c7_comparison_operator_required_witness :
    exceptErrored (releaseDynamicSearch c2Db [("rating", SVal.int 90)]) = true
    ∧ exceptErrored (releaseDynamicSearch c2Db
        [("year", SVal.int 2000), ("year_comparison", SVal.str "<=")]) = true
    ∧ exceptErrored (aolDynamicSearch c2Table [("begin_date", SVal.int 1990)]) = true
    ∧ exceptErrored (aolDynamicSearch c2Table
        [("end_date", SVal.int 2001), ("end_comparison", SVal.str "~")]) = true :=
  ⟨c7_comparison_operator_required.1 c2Db [("rating", SVal.int 90)] (SVal.int 90)
      rfl (by decide) (by decide) (Or.inl rfl),
   c7_comparison_operator_required.2.1 c2Db
      [("year", SVal.int 2000), ("year_comparison", SVal.str "<=")] (SVal.int 2000)
      rfl (by decide) (by decide)
      (Or.inr ⟨SVal.str "<=", rfl, by simp [validCmpOp]⟩),
   c7_comparison_operator_required.2.2.1 c2Table
      [("begin_date", SVal.int 1990)] (SVal.int 1990)
      rfl (by decide) (Or.inl rfl),
   c7_comparison_operator_required.2.2.2 c2Table
      [("end_date", SVal.int 2001), ("end_comparison", SVal.str "~")] (SVal.int 2001)
      rfl (by decide) (Or.inr ⟨SVal.str "~", rfl, by simp [validCmpOp]⟩)⟩

/-- C9: goal completion is one-directional.  At every position of the
goal table, a goal whose completion timestamp is already non-null passes
through `check_goals` unchanged (it is excluded from `get_incomplete`),
and a still-open goal of type `"release"` whose qualifying release count
has reached its target gets its completion timestamp set to the current
time. -/
theorem c9_goal_completion_one_directional (now : Int)
    (rels : List ReleaseRow) (goals : List GoalRow) (i : Nat) (g : GoalRow)
    (hg : goals[i]? = some g) :
    (∀ t, g.completed = some t →
      ((checkGoals now rels goals)[i]?).map GoalRow.completed = some (some t))
    ∧ (g.completed = none → g.kindName = "release" →
        g.amount ≤ (newReleasesSinceStart rels g : Int) →
      ((checkGoals now rels goals)[i]?).map GoalRow.completed = some (some now)) := by
  have hmap : (checkGoals now rels goals)[i]? = some (stepGoal now rels g) := by
    simp [checkGoals, List.getElem?_map, hg]
  constructor
  · intro t ht
    rw [hmap]
    simp [stepGoal, ht]
  · intro h0 htype hcount
    rw [hmap]
    simp [stepGoal, h0, updateGoal, htype, hcount]

/-- The open goal used in the C9 witness: type `"release"`, target 1,
start 0. -/
def c9Open : GoalRow := ⟨1, 0, 100, none, "release", 1⟩

/-- The already-completed goal used in the C9 witness. -/
def c9Done : GoalRow := ⟨2, 0, 100, some 3, "release", 1⟩

theorem c9_goal_completion_one_directional_witness :
    ((checkGoals 5 [sampleRelease 1 1 50] [c9Open, c9Done])[0]?).map GoalRow.completed
      = some (some 5)
    ∧ ((checkGoals 5 [sampleRelease 1 1 50] [c9Open, c9Done])[1]?).map GoalRow.completed
      = some (some 3) :=
  ⟨(c9_goal_completion_one_directional 5 [sampleRelease 1 1 50] [c9Open, c9Done]
      0 c9Open rfl).2 rfl rfl (by decide),
   (c9_goal_completion_one_directional 5 [sampleRelease 1 1 50] [c9Open, c9Done]
      1 c9Done rfl).1 3 rfl⟩

/-- C10: when a queried name fuzzily matches at least two stored rows,
`exists_by_name` catches the `MultipleResultsFound` raised by
`one_or_none` and returns the first matching row in storage order, and
`create_if_not_exist` called with that name (and no external id) resolves
to that row's id with no insert and no surfaced error. -/
theorem c10_ambiguous_name_returns_first (env : NetEnv)
    (catalog : String → Option String → Option EntityInfo) (kind : AoLKind)
    (st : AoLTable) (name : String) (r r2 : AoLRow) (rest : List AoLRow)
    (hname : name ≠ "")
    (hfilter : st.rows.filter (fun row => ilikeContains row.name name)
      = r :: r2 :: rest) :
    existsByName st.rows name = some r
    ∧ createIfNotExist env catalog kind name none st = (.ok r.id, st) := by
  have hebn : existsByName st.rows name = some r := by
    unfold existsByName
    rw [if_neg hname, hfilter]
    rfl
  refine ⟨hebn, ?_⟩
  unfold createIfNotExist
  simp [existsByMbid, hebn]

theorem c10_ambiguous_name_returns_first_witness :
    existsByName [sampleAoL 1 "Doe Ray", sampleAoL 2 "Adore"] "do"
      = some (sampleAoL 1 "Doe Ray")
    ∧ createIfNotExist env0 (fun _ _ => none) .artist "do" none
        ⟨[sampleAoL 1 "Doe Ray", sampleAoL 2 "Adore"], 3⟩
      = (.ok 1, ⟨[sampleAoL 1 "Doe Ray", sampleAoL 2 "Adore"], 3⟩) :=
  c10_ambiguous_name_returns_first env0 (fun _ _ => none) .artist
    ⟨[sampleAoL 1 "Doe Ray", sampleAoL 2 "Adore"], 3⟩ "do"
    (sampleAoL 1 "Doe Ray") (sampleAoL 2 "Adore") [] (by decide) (by rfl)

end Databass
